import Mathlib

set_option maxRecDepth 100000

/-!
Verification of the property-sale CRUD backend (`src/main.py`, `src/schemas.py`)
against its natural-language specification.

The document store is schemaless; in this application every stored value is a
null, a string, a number, a boolean, a datetime, a store identifier (ObjectId),
or a list of strings (image URLs), so the value type below covers exactly the
shapes the handlers read and write.  Numbers (Python int/float) are modelled as
rationals; datetimes as natural-number timestamps.

`database.py` is imported by `main.py` but is not part of the provided sources;
its operations (`db`, `create_document`, `get_documents`) are modelled from the
specification's Document Store Adapter contract (spec section 4.1) and are marked
"Modelled from the spec" below.  The bson / passlib / jose libraries are external
collaborators (spec section 1) modelled by their documented contracts.
-/

deriving instance DecidableEq for Except

inductive Value where
  | vNull : Value
  | vStr (s : String) : Value
  | vNum (q : ℚ) : Value
  | vBool (b : Bool) : Value
  | vTime (t : Nat) : Value
  | vOid (o : Nat) : Value
  | vStrList (l : List String) : Value
deriving DecidableEq

/-- A document: a Python dict, i.e. an ordered key/value map with unique keys. -/
abbrev Doc := List (String × Value)

/-- `d.get(k)` on a Python dict: value of the first entry with key `k`. -/
def dGet : Doc → String → Option Value
  | [], _ => none
  | (k1, v1) :: rest, k => if k1 == k then some v1 else dGet rest k

/-- `d[k] = v` on a Python dict: overwrite the entry in place if the key is
present (keys are unique), otherwise append the new entry at the end (dicts
preserve insertion order). -/
def setField : Doc → String → Value → Doc
  | [], k, v => [(k, v)]
  | (k1, v1) :: rest, k, v =>
    if k1 == k then (k, v) :: rest else (k1, v1) :: setField rest k v

/-- `d.pop(k, None)`: drop every entry with key `k` (keys are unique in dicts). -/
def removeField (d : Doc) (k : String) : Doc :=
  d.filter (fun p => !(p.1 == k))

/-- A Mongo equality filter: every filter entry must match the document. -/
def matchesFilter (filter : Doc) (d : Doc) : Bool :=
  filter.all (fun p => dGet d p.1 == some p.2)

/-- `collection.find_one(filter)`: first matching document, if any. -/
def findOne (docs : List Doc) (filter : Doc) : Option Doc :=
  docs.find? (fun d => matchesFilter filter d)

/-- Python truthiness of a `find_one` result as used in `if not doc:` —
`None` and the empty dict are both falsy. -/
def pyFound (r : Option Doc) : Option Doc :=
  match r with
  | some d => if d.isEmpty then none else some d
  | none => none

/-- Apply a Mongo `$set` update document: set each listed field in order. -/
def applySet (d : Doc) (updates : Doc) : Doc :=
  updates.foldl (fun acc p => setField acc p.1 p.2) d

/-- `collection.update_one(filter, {"$set": updates})`: update the first
matching document; returns the new list and the matched count. -/
def updateOneList : List Doc → Doc → Doc → List Doc × Nat
  | [], _, _ => ([], 0)
  | d :: rest, filter, updates =>
    if matchesFilter filter d then (applySet d updates :: rest, 1)
    else
      let r := updateOneList rest filter updates
      (d :: r.1, r.2)

/-- `collection.delete_one(filter)`: remove the first matching document;
returns the new list and the deleted count. -/
def deleteOneList : List Doc → Doc → List Doc × Nat
  | [], _ => ([], 0)
  | d :: rest, filter =>
    if matchesFilter filter d then (rest, 1)
    else
      let r := deleteOneList rest filter
      (d :: r.1, r.2)

/-- Hex digit character for a digit value below 16 (lowercase, as `str(ObjectId)`). -/
def hexChar (d : Nat) : Char :=
  if d < 10 then Char.ofNat (48 + d) else Char.ofNat (87 + d)

/-- Numeric value of a hex digit character. -/
def hexVal (c : Char) : Nat :=
  if c.toNat ≤ 57 then c.toNat - 48
  else if c.toNat ≤ 70 then c.toNat - 55
  else c.toNat - 87

/-- Is this character a hexadecimal digit (bson accepts both cases)? -/
def isHexChar (c : Char) : Bool :=
  (48 ≤ c.toNat && c.toNat ≤ 57) || (97 ≤ c.toNat && c.toNat ≤ 102) ||
    (65 ≤ c.toNat && c.toNat ≤ 70)

/-- The 24 little-endian base-16 digits of an identifier (12-byte ObjectId). -/
def natToHex24 (o : Nat) : List Nat :=
  (List.range 24).map (fun i => o / 16 ^ i % 16)

/-- Value of a little-endian list of base-16 digits. -/
def hexToNatLE : List Nat → Nat
  | [] => 0
  | d :: rest => d + 16 * hexToNatLE rest

/-- `str(ObjectId)`: the canonical 24-character lowercase hex string. -/
def oidToString (o : Nat) : String :=
  String.mk ((natToHex24 o).reverse.map hexChar)

/-- `bson.ObjectId(s)`: accepts exactly 24-character hex strings, raising
`InvalidId` on anything else. -/
def parseObjectId (s : String) : Except String Nat :=
  if s.data.length == 24 && s.data.all isHexChar then
    .ok (hexToNatLE ((s.data.map hexVal).reverse))
  else
    .error "InvalidId"

/-- Outcome of a route handler: a normal response body, an `HTTPException`
raised deliberately, or an uncaught exception propagating to the framework. -/
inductive HResult (α : Type) where
  | ok (a : α) : HResult α
  | httpError (status : Nat) (detail : String) : HResult α
  | exn (msg : String) : HResult α
deriving DecidableEq

/-- The HTTP status the client observes: FastAPI turns an uncaught exception
into a 500 response; a normal body carries no failure status. -/
def HResult.statusCode : HResult α → Option Nat
  | .ok _ => none
  | .httpError s _ => some s
  | .exn _ => some 500

/-- The four collections of the application plus the store's identifier
counter (store-generated identifiers are unique and increasing). -/
structure Store where
  property : List Doc
  offer : List Doc
  sitesettings : List Doc
  adminuser : List Doc
  nextId : Nat
deriving DecidableEq

/-- Modelled from the spec: `database.py`'s `create_document(collection, doc)`
(spec section 4.1) — appends the document, assigning a fresh store-generated
identifier, and returns that identifier in printable string form. -/
def insertInto (docs : List Doc) (nextId : Nat) (data : Doc) :
    List Doc × Nat × String :=
  (docs ++ [setField data "_id" (Value.vOid nextId)], nextId + 1, oidToString nextId)

/-- Modelled from the spec: `database.py`'s `get_documents(collection, filter)`
(spec section 4.1) — all documents matching a partial key/value equality map;
the empty filter selects every document. -/
def get_documents (docs : List Doc) (filter : Doc) : List Doc :=
  docs.filter (fun d => matchesFilter filter d)

/-- `serialize_doc` from `main.py`: rename the internal `_id` (when it is an
ObjectId) to a public string `id` field and drop the `_id` key; falsy inputs
are returned unchanged. -/
def serialize_doc (doc : Doc) : Doc :=
  if doc.isEmpty then doc
  else
    let doc1 :=
      match dGet doc "_id" with
      | some (Value.vOid o) => setField doc "id" (Value.vStr (oidToString o))
      | _ => doc
    removeField doc1 "_id"

/-- `serialize_doc` applied to a `find_one` result that may be `None`
(Python's `None` body is modelled as the empty document). -/
def serializeOpt : Option Doc → Doc
  | some d => serialize_doc d
  | none => []

/-- `d.get(k)` with Python's `None` default, as a store value. -/
def pyGet (d : Doc) (k : String) : Value :=
  (dGet d k).getD Value.vNull

/-- `str(user.get("_id"))` for a stored document: every document inserted by
this application carries an ObjectId `_id`, printed in canonical hex form. -/
def pyStrOfId : Option Value → String
  | some (Value.vOid o) => oidToString o
  | _ => ""

/-- The entity `Property` from `schemas.py`.  The Python `int`-typed fields
(`bedrooms`, `square_feet`) are modelled with the same numeric type as the
`float` fields; no handler distinguishes the two representations. -/
structure PropertyT where
  title : String
  description : Option String
  price : ℚ
  address : String
  city : String
  state : String
  country : String
  bedrooms : Option ℚ
  bathrooms : Option ℚ
  square_feet : Option ℚ
  images : List String
  status : String
  featured : Bool
  listed_at : Option Nat
deriving DecidableEq

def vOfOptStr : Option String → Value
  | some s => Value.vStr s
  | none => Value.vNull

def vOfOptNum : Option ℚ → Value
  | some q => Value.vNum q
  | none => Value.vNull

def vOfOptTime : Option Nat → Value
  | some t => Value.vTime t
  | none => Value.vNull

/-- `prop.model_dump()`: the Property record as a dict, fields in declaration
order, absent optionals as `None`. -/
def dumpProperty (P : PropertyT) : Doc :=
  [("title", Value.vStr P.title),
   ("description", vOfOptStr P.description),
   ("price", Value.vNum P.price),
   ("address", Value.vStr P.address),
   ("city", Value.vStr P.city),
   ("state", Value.vStr P.state),
   ("country", Value.vStr P.country),
   ("bedrooms", vOfOptNum P.bedrooms),
   ("bathrooms", vOfOptNum P.bathrooms),
   ("square_feet", vOfOptNum P.square_feet),
   ("images", Value.vStrList P.images),
   ("status", Value.vStr P.status),
   ("featured", Value.vBool P.featured),
   ("listed_at", vOfOptTime P.listed_at)]

/-- Read a required string field of a payload. -/
def reqStr (j : Doc) (k : String) : Option String :=
  match dGet j k with
  | some (Value.vStr s) => some s
  | _ => none

/-- Read an optional (default `None`) string field of a payload. -/
def optStrField (j : Doc) (k : String) : Option (Option String) :=
  match dGet j k with
  | none => some none
  | some Value.vNull => some none
  | some (Value.vStr s) => some (some s)
  | _ => none

/-- Read a required numeric field constrained to be non-negative (`ge=0`). -/
def reqNum0 (j : Doc) (k : String) : Option ℚ :=
  match dGet j k with
  | some (Value.vNum q) => if 0 ≤ q then some q else none
  | _ => none

/-- Read an optional numeric field constrained to be non-negative (`ge=0`). -/
def optNum0 (j : Doc) (k : String) : Option (Option ℚ) :=
  match dGet j k with
  | none => some none
  | some Value.vNull => some none
  | some (Value.vNum q) => if 0 ≤ q then some (some q) else none
  | _ => none

/-- Read an optional datetime field of a payload. -/
def optTimeField (j : Doc) (k : String) : Option (Option Nat) :=
  match dGet j k with
  | none => some none
  | some Value.vNull => some none
  | some (Value.vTime t) => some (some t)
  | _ => none

/-- Read a string-list field defaulting to the empty list (`default_factory=list`). -/
def defStrList (j : Doc) (k : String) : Option (List String) :=
  match dGet j k with
  | none => some []
  | some (Value.vStrList l) => some l
  | _ => none

/-- Read a string field with a literal default. -/
def defStr (j : Doc) (k : String) (dflt : String) : Option String :=
  match dGet j k with
  | none => some dflt
  | some (Value.vStr s) => some s
  | _ => none

/-- Read a boolean field with a literal default. -/
def defBool (j : Doc) (k : String) (dflt : Bool) : Option Bool :=
  match dGet j k with
  | none => some dflt
  | some (Value.vBool b) => some b
  | _ => none

/-- Pydantic validation of a `Property` request body (`schemas.py`): required
fields `title/price/address/city/state/country`, non-negative numerics, and
the declared defaults `images=[]`, `status="available"`, `featured=False`. -/
def parseProperty (j : Doc) : Option PropertyT :=
  Option.bind (reqStr j "title") fun title =>
  Option.bind (optStrField j "description") fun description =>
  Option.bind (reqNum0 j "price") fun price =>
  Option.bind (reqStr j "address") fun address =>
  Option.bind (reqStr j "city") fun city =>
  Option.bind (reqStr j "state") fun state =>
  Option.bind (reqStr j "country") fun country =>
  Option.bind (optNum0 j "bedrooms") fun bedrooms =>
  Option.bind (optNum0 j "bathrooms") fun bathrooms =>
  Option.bind (optNum0 j "square_feet") fun square_feet =>
  Option.bind (defStrList j "images") fun images =>
  Option.bind (defStr j "status" "available") fun status =>
  Option.bind (defBool j "featured" false) fun featured =>
  Option.bind (optTimeField j "listed_at") fun listed_at =>
  some ⟨title, description, price, address, city, state, country, bedrooms,
    bathrooms, square_feet, images, status, featured, listed_at⟩

/-- The entity `SiteSettings` from `schemas.py`. -/
structure SiteSettingsT where
  site_name : String
  hero_headline : String
  hero_subtitle : Option String
  contact_email : Option String
  phone : Option String
deriving DecidableEq

def dumpSiteSettings (s : SiteSettingsT) : Doc :=
  [("site_name", Value.vStr s.site_name),
   ("hero_headline", Value.vStr s.hero_headline),
   ("hero_subtitle", vOfOptStr s.hero_subtitle),
   ("contact_email", vOfOptStr s.contact_email),
   ("phone", vOfOptStr s.phone)]

/-- `JWT_SECRET = os.getenv("JWT_SECRET", "devsecret")` — the insecure default. -/
def JWT_SECRET : String := "devsecret"

def JWT_ALG : String := "HS256"

/-- Modelled from the spec: the passlib bcrypt context is an external opaque
one-way primitive (spec sections 1, 4.3); the model keys the hash to the
plaintext so that the documented verify contract holds. -/
def hashPassword (pw : String) : String :=
  "$2b$12$" ++ pw

/-- Modelled from the spec: `verifyPassword(plaintext, hash)` succeeds exactly
when the hash was produced from the same plaintext (spec section 4.3). -/
def verifyPassword (pw h : String) : Bool :=
  h == hashPassword pw

/-- A signed token: an opaque string carrying a claims map, a signing secret
and algorithm (the jose library is an external collaborator; the signed blob
is modelled by its decoded content). -/
structure JWT where
  claims : Doc
  secret : String
  alg : String
deriving DecidableEq

/-- `create_token` from `main.py`: claims plus an `exp` 8 hours from issuance,
signed with the server secret under HS256. -/
def create_token (payload : Doc) (now : Nat) : JWT :=
  { claims := setField payload "exp" (Value.vNum ((now : ℚ) + 60 * 60 * 8)),
    secret := JWT_SECRET, alg := JWT_ALG }

inductive TokenFailure where
  | malformed : TokenFailure
  | signatureMismatch : TokenFailure
  | expired : TokenFailure
deriving DecidableEq

/-- Modelled from the spec: `validateToken(token)` (spec section 4.3) — this
Auth Module routine is described by the spec but absent from the provided
sources; it verifies the signature (shared secret, fixed algorithm) and the
expiration, returning the claims or one of the documented failure kinds. -/
def validateToken (tok : JWT) (secret : String) (now : ℚ) : Except TokenFailure Doc :=
  if tok.secret == secret && tok.alg == JWT_ALG then
    match dGet tok.claims "exp" with
    | some (Value.vNum e) => if now < e then .ok tok.claims else .error .expired
    | _ => .error .malformed
  else
    .error .signatureMismatch

/-- The body of `POST /admin/login`. -/
structure LoginRequest where
  email : String
  password : String

/-- The success body of `POST /admin/login`: a token and a display name. -/
structure LoginResponse where
  token : JWT
  name : Value
deriving DecidableEq

/-- `GET /api/properties`: all properties, optionally filtered by `featured`. -/
def list_properties (store : Store) (featured : Option Bool) : List Doc :=
  let q : Doc :=
    match featured with
    | some b => [("featured", Value.vBool b)]
    | none => []
  (get_documents store.property q).map serialize_doc

/-- `POST /api/properties`: 500 when the store handle is `None`; otherwise dump
the validated payload, stamp `listed_at`, insert, re-read and serialize. -/
def create_property (odb : Option Store) (prop : PropertyT) (now : Nat) :
    HResult Doc × Option Store :=
  match odb with
  | none => (.httpError 500 "Database not configured", none)
  | some store =>
    let data := setField (dumpProperty prop) "listed_at" (Value.vTime now)
    let ins := insertInto store.property store.nextId data
    let store1 : Store := { store with property := ins.1, nextId := ins.2.1 }
    match parseObjectId ins.2.2 with
    | .error m => (.exn m, some store1)
    | .ok oid =>
      (.ok (serializeOpt (findOne store1.property [("_id", Value.vOid oid)])), some store1)

/-- `GET /api/properties/{property_id}`: parse the identifier (raising
`InvalidId` on malformed input), look up, 404 when absent. -/
def get_property (store : Store) (property_id : String) : HResult Doc :=
  match parseObjectId property_id with
  | .error m => .exn m
  | .ok oid =>
    match pyFound (findOne store.property [("_id", Value.vOid oid)]) with
    | none => .httpError 404 "Property not found"
    | some d => .ok (serialize_doc d)

/-- `PATCH /api/properties/{property_id}`: stamp `updated_at` into the raw
update map, `$set`-merge it into the matching document, 404 when nothing
matched, then re-read and serialize. -/
def update_property (store : Store) (property_id : String) (updates : Doc)
    (now : Nat) : HResult Doc × Store :=
  let updates1 := setField updates "updated_at" (Value.vTime now)
  match parseObjectId property_id with
  | .error m => (.exn m, store)
  | .ok oid =>
    let r := updateOneList store.property [("_id", Value.vOid oid)] updates1
    let store1 : Store := { store with property := r.1 }
    if r.2 == 0 then (.httpError 404 "Property not found", store1)
    else (.ok (serializeOpt (findOne store1.property [("_id", Value.vOid oid)])), store1)

/-- `DELETE /api/properties/{property_id}`: delete by identifier, 404 when
nothing was deleted. -/
def delete_property (store : Store) (property_id : String) : HResult Doc × Store :=
  match parseObjectId property_id with
  | .error m => (.exn m, store)
  | .ok oid =>
    let r := deleteOneList store.property [("_id", Value.vOid oid)]
    let store1 : Store := { store with property := r.1 }
    if r.2 == 0 then (.httpError 404 "Property not found", store1)
    else (.ok [("status", Value.vStr "ok")], store1)

/-- `GET /api/offers`: `q = {"property_id": property_id} if property_id else {}`
— the filter is applied only when the parameter is a truthy (non-empty) string. -/
def list_offers (store : Store) (property_id : Option String) : List Doc :=
  let q : Doc :=
    match property_id with
    | some pid => if pid == "" then [] else [("property_id", Value.vStr pid)]
    | none => []
  (get_documents store.offer q).map serialize_doc

/-- The hardcoded default settings constructed by `GET /api/settings`. -/
def settingsDefaults : SiteSettingsT :=
  ⟨"Nova Estates", "Find your next home", some "Browse curated properties", none, none⟩

/-- `GET /api/settings`: return the singleton settings document, creating it
from hardcoded defaults when the collection has none. -/
def get_settings (store : Store) : HResult Doc × Store :=
  match pyFound (findOne store.sitesettings []) with
  | some d => (.ok (serialize_doc d), store)
  | none =>
    let ins := insertInto store.sitesettings store.nextId (dumpSiteSettings settingsDefaults)
    let store1 : Store := { store with sitesettings := ins.1, nextId := ins.2.1 }
    (.ok (serializeOpt (findOne store1.sitesettings [])), store1)

/-- The `AdminUser` document built by the seed route (`schemas.py` field order,
`is_active` defaulting to `True`). -/
def seededAdminDoc : Doc :=
  [("email", Value.vStr "admin@example.com"),
   ("password_hash", Value.vStr (hashPassword "admin123")),
   ("name", Value.vStr "Admin"),
   ("is_active", Value.vBool true)]

/-- `POST /api/admin/seed`: no-op when an admin with the well-known email
exists, otherwise create one and echo the plaintext password. -/
def seed_admin (store : Store) : Doc × Store :=
  match pyFound (findOne store.adminuser [("email", Value.vStr "admin@example.com")]) with
  | some _ => ([("status", Value.vStr "exists")], store)
  | none =>
    let ins := insertInto store.adminuser store.nextId seededAdminDoc
    ([("status", Value.vStr "created"),
      ("email", Value.vStr "admin@example.com"),
      ("password", Value.vStr "admin123")],
     { store with adminuser := ins.1, nextId := ins.2.1 })

/-- `POST /api/admin/login`: look up by email, verify the password hash, and
on success mint a token carrying the subject id and email.  Both failure modes
raise the same `401 Invalid credentials`; a missing or non-string stored hash
makes the passlib verify call raise. -/
def admin_login (store : Store) (payload : LoginRequest) (now : Nat) :
    HResult LoginResponse × Store :=
  match pyFound (findOne store.adminuser [("email", Value.vStr payload.email)]) with
  | none => (.httpError 401 "Invalid credentials", store)
  | some user =>
    match dGet user "password_hash" with
    | some (Value.vStr h) =>
      if verifyPassword payload.password h then
        let token := create_token
          [("sub", Value.vStr (pyStrOfId (dGet user "_id"))), ("email", pyGet user "email")] now
        (.ok { token := token, name := pyGet user "name" }, store)
      else
        (.httpError 401 "Invalid credentials", store)
    | _ => (.exn "TypeError", store)

/-- The observable state `GET /test` reacts to: whether the store handle
exists, whether the environment variables are set, and the outcome of
`db.list_collection_names()` (which may raise). -/
structure TestEnv where
  dbExists : Bool
  urlSet : Bool
  nameSet : Bool
  listCollections : Except String (List String)

/-- The response body of `GET /test`. -/
structure TestResponse where
  backend : String
  database : String
  database_url : Option String
  database_name : Option String
  connection_status : String
  collections : List String
deriving DecidableEq

/-- `GET /test` from `main.py`: a totalized translation — every failure of the
store (absent handle, raising collection listing) is caught by the handler's
`try/except` blocks and folded into the returned body. -/
def test_database (env : TestEnv) : TestResponse :=
  let r0 : TestResponse :=
    { backend := "✅ Running", database := "❌ Not Available", database_url := none,
      database_name := none, connection_status := "Not Connected", collections := [] }
  if env.dbExists then
    let r1 : TestResponse :=
      { r0 with database := "✅ Connected & Working",
                database_url := some (if env.urlSet then "✅ Set" else "❌ Not Set"),
                database_name := some (if env.nameSet then "✅ Set" else "❌ Not Set") }
    match env.listCollections with
    | .ok cols => { r1 with collections := cols.take 10, connection_status := "Connected" }
    | .error e => { r1 with database := "⚠️  Connected but Error: " ++ e.take 50 }
  else
    { r0 with database := "⚠️  Available but not initialized" }


/-! ## Dictionary lemmas -/

theorem dGet_setField_self (d : Doc) (k : String) (v : Value) :
    dGet (setField d k v) k = some v := by
  induction d with
  | nil => simp [setField, dGet]
  | cons p rest ih =>
    obtain ⟨k1, v1⟩ := p
    cases hk : (k1 == k) with
    | true => simp [setField, hk, dGet]
    | false => simp [setField, hk, dGet, ih]

theorem dGet_setField_ne (d : Doc) {k k1 : String} (v : Value) (h : k1 ≠ k) :
    dGet (setField d k v) k1 = dGet d k1 := by
  have hkk : (k == k1) = false := by
    simp only [beq_eq_false_iff_ne]
    exact fun hx => h hx.symm
  induction d with
  | nil => simp [setField, dGet, hkk]
  | cons p rest ih =>
    obtain ⟨k2, v2⟩ := p
    cases hk : (k2 == k) with
    | true =>
      have hk2 : k2 = k := by simpa using hk
      subst hk2
      simp [setField, dGet, hkk]
    | false => simp [setField, hk, dGet, ih]

theorem setField_ne_nil (d : Doc) (k : String) (v : Value) : setField d k v ≠ [] := by
  cases d with
  | nil => simp [setField]
  | cons p rest =>
    obtain ⟨k1, v1⟩ := p
    cases hk : (k1 == k) with
    | true => simp [setField, hk]
    | false => simp [setField, hk]

theorem dGet_removeField_self (d : Doc) (k : String) :
    dGet (removeField d k) k = none := by
  induction d with
  | nil => rfl
  | cons p rest ih =>
    obtain ⟨k1, v1⟩ := p
    cases hk : (k1 == k) with
    | true => simpa [removeField, List.filter_cons, hk] using ih
    | false =>
      simp only [removeField, List.filter_cons, hk, Bool.not_false, if_true]
      simpa [dGet, hk] using ih

theorem dGet_removeField_ne (d : Doc) {k k1 : String} (h : k1 ≠ k) :
    dGet (removeField d k) k1 = dGet d k1 := by
  induction d with
  | nil => rfl
  | cons p rest ih =>
    obtain ⟨k2, v2⟩ := p
    cases hk : (k2 == k) with
    | true =>
      have hne : (k == k1) = false := by
        simp only [beq_eq_false_iff_ne]
        exact fun hx => h hx.symm
      have hk2 : k2 = k := by simpa using hk
      subst hk2
      simp only [removeField, List.filter_cons, hk, Bool.not_true, Bool.false_eq_true,
        if_false, dGet, hne]
      exact ih
    | false =>
      simp only [removeField, List.filter_cons, hk, Bool.not_false, if_true, dGet]
      cases hk1 : (k2 == k1) with
      | true => simp [hk1]
      | false =>
        simp only [hk1, Bool.false_eq_true, if_false]
        simpa [removeField] using ih

theorem dGet_append_some {l1 l2 : Doc} {k : String} {v : Value}
    (h : dGet l1 k = some v) : dGet (l1 ++ l2) k = some v := by
  induction l1 with
  | nil => simp [dGet] at h
  | cons p rest ih =>
    obtain ⟨k1, v1⟩ := p
    cases hk : (k1 == k) with
    | true => simp_all [dGet]
    | false =>
      simp only [dGet, hk, Bool.false_eq_true, if_false] at h
      simp only [List.cons_append, dGet, hk, Bool.false_eq_true, if_false]
      exact ih h

theorem dGet_append_none {l1 l2 : Doc} {k : String}
    (h : dGet l1 k = none) : dGet (l1 ++ l2) k = dGet l2 k := by
  induction l1 with
  | nil => rfl
  | cons p rest ih =>
    obtain ⟨k1, v1⟩ := p
    cases hk : (k1 == k) with
    | true => simp [dGet, hk] at h
    | false =>
      simp only [dGet, hk, Bool.false_eq_true, if_false] at h
      simp only [List.cons_append, dGet, hk, Bool.false_eq_true, if_false]
      exact ih h

/-! ## Serialization lemmas -/

theorem serialize_doc_eq {doc : Doc} {o : Nat} (hne : doc ≠ [])
    (hid : dGet doc "_id" = some (Value.vOid o)) :
    serialize_doc doc =
      removeField (setField doc "id" (Value.vStr (oidToString o))) "_id" := by
  have hemp : doc.isEmpty = false := by
    cases doc with
    | nil => exact absurd rfl hne
    | cons a l => rfl
  unfold serialize_doc
  rw [hemp, hid]
  rfl

theorem dGet_serialize_id {doc : Doc} {o : Nat} (hne : doc ≠ [])
    (hid : dGet doc "_id" = some (Value.vOid o)) :
    dGet (serialize_doc doc) "id" = some (Value.vStr (oidToString o)) := by
  rw [serialize_doc_eq hne hid, dGet_removeField_ne _ (by decide), dGet_setField_self]

theorem dGet_serialize_no_oid {doc : Doc} {o : Nat} (hne : doc ≠ [])
    (hid : dGet doc "_id" = some (Value.vOid o)) :
    dGet (serialize_doc doc) "_id" = none := by
  rw [serialize_doc_eq hne hid, dGet_removeField_self]

theorem dGet_serialize_other {doc : Doc} {o : Nat} {k : String} (hne : doc ≠ [])
    (hid : dGet doc "_id" = some (Value.vOid o)) (h1 : k ≠ "id") (h2 : k ≠ "_id") :
    dGet (serialize_doc doc) k = dGet doc k := by
  rw [serialize_doc_eq hne hid, dGet_removeField_ne _ h2, dGet_setField_ne _ _ h1]

/-! ## Filter and search lemmas -/

theorem matchesFilter_nil (d : Doc) : matchesFilter [] d = true := rfl

theorem matchesFilter_single (k : String) (v : Value) (d : Doc) :
    matchesFilter [(k, v)] d = (dGet d k == some v) := by
  simp [matchesFilter]

theorem find?_none_of_all_false {α : Type} (p : α → Bool) (l : List α)
    (h : ∀ x ∈ l, p x = false) : l.find? p = none := by
  induction l with
  | nil => rfl
  | cons a rest ih =>
    rw [List.find?_cons, h a (List.mem_cons_self a rest)]
    exact ih (fun x hx => h x (List.mem_cons_of_mem a hx))

theorem find?_append_all_false {α : Type} (p : α → Bool) (l1 l2 : List α)
    (h : ∀ x ∈ l1, p x = false) : (l1 ++ l2).find? p = l2.find? p := by
  induction l1 with
  | nil => rfl
  | cons a rest ih =>
    rw [List.cons_append, List.find?_cons, h a (List.mem_cons_self a rest)]
    exact ih (fun x hx => h x (List.mem_cons_of_mem a hx))

theorem find?_first {pre post : List Doc} {d : Doc} {p : Doc → Bool}
    (hpre : ∀ x ∈ pre, p x = false) (hd : p d = true) :
    (pre ++ d :: post).find? p = some d := by
  rw [find?_append_all_false p pre _ hpre, List.find?_cons, hd]

theorem updateOneList_all_false {l : List Doc} {f u : Doc}
    (h : ∀ d ∈ l, matchesFilter f d = false) : updateOneList l f u = (l, 0) := by
  induction l with
  | nil => rfl
  | cons d rest ih =>
    have hd := h d (List.mem_cons_self d rest)
    have ihr := ih (fun x hx => h x (List.mem_cons_of_mem d hx))
    simp [updateOneList, hd, ihr]

theorem updateOneList_split {pre post : List Doc} {d : Doc} {f u : Doc}
    (hpre : ∀ e ∈ pre, matchesFilter f e = false) (hd : matchesFilter f d = true) :
    updateOneList (pre ++ d :: post) f u = (pre ++ applySet d u :: post, 1) := by
  induction pre with
  | nil => simp [updateOneList, hd]
  | cons e rest ih =>
    have he := hpre e (List.mem_cons_self e rest)
    have ihr := ih (fun x hx => hpre x (List.mem_cons_of_mem e hx))
    simp [updateOneList, he, ihr]

theorem deleteOneList_all_false {l : List Doc} {f : Doc}
    (h : ∀ d ∈ l, matchesFilter f d = false) : deleteOneList l f = (l, 0) := by
  induction l with
  | nil => rfl
  | cons d rest ih =>
    have hd := h d (List.mem_cons_self d rest)
    have ihr := ih (fun x hx => h x (List.mem_cons_of_mem d hx))
    simp [deleteOneList, hd, ihr]

/-! ## Identifier round-trip lemmas -/

theorem natToHex24_length (o : Nat) : (natToHex24 o).length = 24 := by
  simp [natToHex24]

theorem natToHex24_lt (o : Nat) : ∀ d ∈ natToHex24 o, d < 16 := by
  intro d hd
  simp only [natToHex24, List.mem_map, List.mem_range] at hd
  obtain ⟨i, _, rfl⟩ := hd
  exact Nat.mod_lt _ (by norm_num)

theorem hexVal_hexChar {d : Nat} (h : d < 16) : hexVal (hexChar d) = d := by
  interval_cases d <;> decide

theorem isHexChar_hexChar {d : Nat} (h : d < 16) : isHexChar (hexChar d) = true := by
  interval_cases d <;> decide

theorem mod_hex_succ (o k : Nat) :
    o % 16 ^ (k + 1) = o % 16 + 16 * (o / 16 % 16 ^ k) := by
  have hp : 0 < 16 ^ k := pow_pos (by norm_num) k
  have hr : o % 16 < 16 := Nat.mod_lt _ (by norm_num)
  have hm : o / 16 % 16 ^ k < 16 ^ k := Nat.mod_lt _ hp
  have h2 : o % 16 % (16 * 16 ^ k) = o % 16 := Nat.mod_eq_of_lt (by omega)
  have h3 : (16 * (o / 16 % 16 ^ k) + o % 16) % (16 * 16 ^ k) =
      16 * (o / 16 % 16 ^ k) + o % 16 := Nat.mod_eq_of_lt (by omega)
  calc o % 16 ^ (k + 1)
      = (16 * (o / 16) + o % 16) % (16 * 16 ^ k) := by
        rw [Nat.div_add_mod]
        congr 1
        ring
    _ = (16 * (o / 16) % (16 * 16 ^ k) + o % 16 % (16 * 16 ^ k)) % (16 * 16 ^ k) :=
        Nat.add_mod _ _ _
    _ = (16 * (o / 16 % 16 ^ k) + o % 16) % (16 * 16 ^ k) := by
        rw [Nat.mul_mod_mul_left, h2]
    _ = 16 * (o / 16 % 16 ^ k) + o % 16 := h3
    _ = o % 16 + 16 * (o / 16 % 16 ^ k) := by omega

theorem hexToNatLE_range (k : Nat) : ∀ o : Nat,
    hexToNatLE ((List.range k).map (fun i => o / 16 ^ i % 16)) = o % 16 ^ k := by
  induction k with
  | zero => intro o; simp [hexToNatLE, Nat.mod_one]
  | succ k ih =>
    intro o
    rw [List.range_succ_eq_map, List.map_cons, List.map_map]
    have h1 : ((fun i => o / 16 ^ i % 16) ∘ Nat.succ) = (fun i => o / 16 / 16 ^ i % 16) := by
      funext i
      have h16 : 16 * 16 ^ i = 16 ^ (i + 1) := by ring
      simp only [Function.comp_apply, Nat.succ_eq_add_one]
      rw [Nat.div_div_eq_div_mul, h16]
    rw [h1]
    simp only [hexToNatLE]
    rw [ih (o / 16), mod_hex_succ]
    simp

theorem parse_oidToString {o : Nat} (h : o < 16 ^ 24) :
    parseObjectId (oidToString o) = .ok o := by
  have hdata : (oidToString o).data = (natToHex24 o).reverse.map hexChar := rfl
  have hlen : ((natToHex24 o).reverse.map hexChar).length = 24 := by
    simp [natToHex24_length]
  have hall : ((natToHex24 o).reverse.map hexChar).all isHexChar = true := by
    rw [List.all_eq_true]
    intro c hc
    rw [List.mem_map] at hc
    obtain ⟨d, hd, rfl⟩ := hc
    exact isHexChar_hexChar (natToHex24_lt o d (List.mem_reverse.mp hd))
  have hmapval : ((natToHex24 o).reverse.map hexChar).map hexVal = (natToHex24 o).reverse := by
    rw [List.map_map]
    have hcongr : ∀ d ∈ (natToHex24 o).reverse, (hexVal ∘ hexChar) d = d := fun d hd =>
      hexVal_hexChar (natToHex24_lt o d (List.mem_reverse.mp hd))
    rw [List.map_congr_left hcongr]
    exact List.map_id _
  unfold parseObjectId
  rw [hdata, hmapval, List.reverse_reverse, hlen, hall]
  simp only [beq_self_eq_true, Bool.and_true, if_true]
  rw [show natToHex24 o = (List.range 24).map (fun i => o / 16 ^ i % 16) from rfl,
    hexToNatLE_range 24 o, Nat.mod_eq_of_lt h]

/-! ## Collection query lemmas -/

theorem get_documents_nil (docs : List Doc) : get_documents docs [] = docs := by
  simp [get_documents, matchesFilter]

/-! ## Claims -/

/-- C10: for every store state, `GET /offers` with `property_id` present but
equal to the empty string returns all Offer documents (the empty string is
falsy, so no filter is applied — identical to omitting the parameter), and the
equality filter is applied only for a non-empty `property_id`, so offers whose
`property_id` is the empty string can never be selected as a strict subset. -/
theorem C10_theorem (store : Store) :
    list_offers store (some "") = store.offer.map serialize_doc
    ∧ list_offers store none = store.offer.map serialize_doc
    ∧ ∀ pid : String, pid ≠ "" →
        list_offers store (some pid) =
          (store.offer.filter
            (fun d => dGet d "property_id" == some (Value.vStr pid))).map serialize_doc := by
  refine ⟨?_, ?_, ?_⟩
  · simp [list_offers, get_documents_nil]
  · simp [list_offers, get_documents_nil]
  · intro pid hpid
    have hb : (pid == "") = false := beq_eq_false_iff_ne.mpr hpid
    simp only [list_offers, hb, Bool.false_eq_true, if_false, get_documents]
    congr 1
    exact List.filter_congr (fun d _ => matchesFilter_single _ _ d)

/-- C10 witness: on a concrete store holding an offer whose `property_id` is
the empty string and one with `property_id = "p"`, the empty-string query
returns both documents and a `"p"` query returns the matching subset. -/
theorem C10_witness :
    list_offers ⟨[], [[("property_id", Value.vStr ""), ("_id", Value.vOid 0)],
        [("property_id", Value.vStr "p"), ("_id", Value.vOid 1)]], [], [], 2⟩ (some "") =
      (([[("property_id", Value.vStr ""), ("_id", Value.vOid 0)],
        [("property_id", Value.vStr "p"), ("_id", Value.vOid 1)]] : List Doc)).map serialize_doc
    ∧ list_offers ⟨[], [[("property_id", Value.vStr ""), ("_id", Value.vOid 0)],
        [("property_id", Value.vStr "p"), ("_id", Value.vOid 1)]], [], [], 2⟩ (some "p") =
      ((([[("property_id", Value.vStr ""), ("_id", Value.vOid 0)],
        [("property_id", Value.vStr "p"), ("_id", Value.vOid 1)]] : List Doc)).filter
        (fun d => dGet d "property_id" == some (Value.vStr "p"))).map serialize_doc :=
  ⟨(C10_theorem _).1, (C10_theorem _).2.2 "p" (by decide)⟩

/-- C8: `GET /test` produces a response body for every store state — handle
absent, reachable, or raising on collection listing — folding failures into
the `database` field, always reporting the process as up, and listing at most
10 collection names. -/
theorem C8_theorem (env : TestEnv) :
    (test_database env).collections.length ≤ 10
    ∧ (test_database env).backend = "✅ Running"
    ∧ ∀ e : String, env.dbExists = true → env.listCollections = Except.error e →
        (test_database env).database = "⚠️  Connected but Error: " ++ e.take 50 := by
  obtain ⟨db, url, nm, lc⟩ := env
  cases db with
  | false =>
    refine ⟨by simp [test_database], by simp [test_database], ?_⟩
    intro e hdb _
    exact absurd hdb (by simp)
  | true =>
    cases lc with
    | ok cols =>
      refine ⟨?_, by simp [test_database], ?_⟩
      · simp only [test_database, if_true]
        calc (cols.take 10).length = min 10 cols.length := List.length_take 10 cols
          _ ≤ 10 := min_le_left _ _
      · intro e _ hlc
        exact absurd hlc (by simp)
    | error e0 =>
      refine ⟨by simp [test_database], by simp [test_database], ?_⟩
      intro e _ hlc
      have he : e0 = e := by simpa using hlc
      subst he
      simp [test_database]

/-- C8 witness: concrete instantiation with a raising collection listing. -/
theorem C8_witness :
    (test_database ⟨true, true, false, Except.error "boom"⟩).collections.length ≤ 10
    ∧ (test_database ⟨true, true, false, Except.error "boom"⟩).database =
        "⚠️  Connected but Error: " ++ "boom".take 50 :=
  ⟨(C8_theorem _).1, (C8_theorem _).2.2 "boom" rfl rfl⟩

/-- C1 counterexample: the claim says a malformed identifier yields HTTP 404
on GET/PATCH/DELETE, but `ObjectId(property_id)` raises `InvalidId` before any
lookup, which surfaces as an unhandled exception (HTTP 500): at the malformed
identifier "abc" none of the three handlers produces 404. -/
theorem C1_counterexample :
    (get_property ⟨[], [], [], [], 0⟩ "abc").statusCode ≠ some 404
    ∧ ((update_property ⟨[], [], [], [], 0⟩ "abc" [] 0).1).statusCode ≠ some 404
    ∧ ((delete_property ⟨[], [], [], [], 0⟩ "abc").1).statusCode ≠ some 404
    ∧ (get_property ⟨[], [], [], [], 0⟩ "abc").statusCode = some 500
    ∧ ((update_property ⟨[], [], [], [], 0⟩ "abc" [] 0).1).statusCode = some 500
    ∧ ((delete_property ⟨[], [], [], [], 0⟩ "abc").1).statusCode = some 500 := by
  decide

/-- C1 (amended): for every identifier string that parses as a valid store
identifier but is absent from the property collection, GET, PATCH and DELETE
on `/properties/{id}` each return exactly HTTP 404; a malformed identifier
string instead makes the ObjectId constructor raise, surfacing as HTTP 500. -/
theorem C1_theorem (store : Store) (s : String) (u : Doc) (now : Nat) :
    ((∃ oid, parseObjectId s = Except.ok oid ∧
        ∀ d ∈ store.property, dGet d "_id" ≠ some (Value.vOid oid)) →
      get_property store s = HResult.httpError 404 "Property not found"
      ∧ (update_property store s u now).1 = HResult.httpError 404 "Property not found"
      ∧ (delete_property store s).1 = HResult.httpError 404 "Property not found")
    ∧ (parseObjectId s = Except.error "InvalidId" →
      (get_property store s).statusCode = some 500
      ∧ ((update_property store s u now).1).statusCode = some 500
      ∧ ((delete_property store s).1).statusCode = some 500) := by
  constructor
  · rintro ⟨oid, hp, habs⟩
    have hfalse : ∀ d ∈ store.property,
        matchesFilter [("_id", Value.vOid oid)] d = false := by
      intro d hd
      rw [matchesFilter_single]
      exact beq_eq_false_iff_ne.mpr (habs d hd)
    have hfind : findOne store.property [("_id", Value.vOid oid)] = none :=
      find?_none_of_all_false _ _ hfalse
    refine ⟨?_, ?_, ?_⟩
    · unfold get_property
      rw [hp]
      simp [hfind, pyFound]
    · unfold update_property
      rw [hp]
      simp [updateOneList_all_false hfalse]
    · unfold delete_property
      rw [hp]
      simp [deleteOneList_all_false hfalse]
  · intro herr
    refine ⟨?_, ?_, ?_⟩
    · unfold get_property
      rw [herr]
      rfl
    · unfold update_property
      rw [herr]
      rfl
    · unfold delete_property
      rw [herr]
      rfl

/-- C1 witness: a valid identifier absent from an empty store gives 404 on all
three routes; the malformed identifier "abc" gives 500 on all three. -/
theorem C1_witness :
    (get_property ⟨[], [], [], [], 0⟩ (oidToString 0) = HResult.httpError 404 "Property not found"
     ∧ (update_property ⟨[], [], [], [], 0⟩ (oidToString 0) [] 0).1 =
         HResult.httpError 404 "Property not found"
     ∧ (delete_property ⟨[], [], [], [], 0⟩ (oidToString 0)).1 =
         HResult.httpError 404 "Property not found")
    ∧ ((get_property ⟨[], [], [], [], 0⟩ "zzz").statusCode = some 500
     ∧ ((update_property ⟨[], [], [], [], 0⟩ "zzz" [] 0).1).statusCode = some 500
     ∧ ((delete_property ⟨[], [], [], [], 0⟩ "zzz").1).statusCode = some 500) :=
  ⟨(C1_theorem ⟨[], [], [], [], 0⟩ (oidToString 0) [] 0).1
      ⟨0, parse_oidToString (by norm_num), by simp⟩,
   (C1_theorem ⟨[], [], [], [], 0⟩ "zzz" [] 0).2 (by decide)⟩

theorem pyFound_eq_some {r : Option Doc} {d : Doc} (h : pyFound r = some d) :
    r = some d := by
  cases r with
  | none => simp [pyFound] at h
  | some d0 =>
    by_cases he : d0.isEmpty
    · simp [pyFound, he] at h
    · simp only [pyFound, he, Bool.false_eq_true, if_false] at h
      simp only [Option.some.injEq] at h ⊢
      exact h

theorem create_token_two (k1 k2 : String) (v1 v2 : Value) (now : Nat)
    (h1 : k1 ≠ "exp") (h2 : k2 ≠ "exp") :
    create_token [(k1, v1), (k2, v2)] now =
      { claims := [(k1, v1), (k2, v2), ("exp", Value.vNum ((now : ℚ) + 60 * 60 * 8))],
        secret := JWT_SECRET, alg := JWT_ALG } := by
  unfold create_token
  congr 1
  simp [setField, beq_eq_false_iff_ne.mpr h1, beq_eq_false_iff_ne.mpr h2]

/-- C5: `POST /admin/login` returns HTTP 401 with detail "Invalid credentials"
and no token both when no AdminUser with the given email exists and when the
stored hash does not verify the password — the identical status and detail in
both cases — and the store is unchanged on failure. -/
theorem C5_theorem (store : Store) (payload : LoginRequest) (now : Nat) :
    ((∀ d ∈ store.adminuser, dGet d "email" ≠ some (Value.vStr payload.email)) →
      admin_login store payload now = (HResult.httpError 401 "Invalid credentials", store))
    ∧ (∀ user h,
        pyFound (findOne store.adminuser [("email", Value.vStr payload.email)]) = some user →
        dGet user "password_hash" = some (Value.vStr h) →
        verifyPassword payload.password h = false →
        admin_login store payload now = (HResult.httpError 401 "Invalid credentials", store)) := by
  constructor
  · intro habs
    have hfalse : ∀ d ∈ store.adminuser,
        matchesFilter [("email", Value.vStr payload.email)] d = false := by
      intro d hd
      rw [matchesFilter_single]
      exact beq_eq_false_iff_ne.mpr (habs d hd)
    have hfind : findOne store.adminuser [("email", Value.vStr payload.email)] = none :=
      find?_none_of_all_false _ _ hfalse
    unfold admin_login
    rw [hfind]
    rfl
  · intro user h hfound hhash hver
    unfold admin_login
    rw [hfound]
    simp [hhash, hver]

/-- C5 witness: on a store holding the seeded admin, a login with an unknown
email and a login with the right email but wrong password both produce exactly
`401 Invalid credentials` and leave the store unchanged. -/
theorem C5_witness :
    admin_login ⟨[], [], [],
        [[("email", Value.vStr "admin@example.com"),
          ("password_hash", Value.vStr (hashPassword "admin123")),
          ("name", Value.vStr "Admin"), ("is_active", Value.vBool true),
          ("_id", Value.vOid 0)]], 1⟩ ⟨"nobody@example.com", "admin123"⟩ 0 =
      (HResult.httpError 401 "Invalid credentials",
        ⟨[], [], [],
        [[("email", Value.vStr "admin@example.com"),
          ("password_hash", Value.vStr (hashPassword "admin123")),
          ("name", Value.vStr "Admin"), ("is_active", Value.vBool true),
          ("_id", Value.vOid 0)]], 1⟩)
    ∧ admin_login ⟨[], [], [],
        [[("email", Value.vStr "admin@example.com"),
          ("password_hash", Value.vStr (hashPassword "admin123")),
          ("name", Value.vStr "Admin"), ("is_active", Value.vBool true),
          ("_id", Value.vOid 0)]], 1⟩ ⟨"admin@example.com", "wrong"⟩ 0 =
      (HResult.httpError 401 "Invalid credentials",
        ⟨[], [], [],
        [[("email", Value.vStr "admin@example.com"),
          ("password_hash", Value.vStr (hashPassword "admin123")),
          ("name", Value.vStr "Admin"), ("is_active", Value.vBool true),
          ("_id", Value.vOid 0)]], 1⟩) :=
  ⟨(C5_theorem _ _ 0).1 (by decide),
   (C5_theorem _ _ 0).2
     [("email", Value.vStr "admin@example.com"),
      ("password_hash", Value.vStr (hashPassword "admin123")),
      ("name", Value.vStr "Admin"), ("is_active", Value.vBool true),
      ("_id", Value.vOid 0)] (hashPassword "admin123") (by decide) (by decide) (by decide)⟩

/-- C6: on successful login, `POST /admin/login` returns a token signed with
the server secret (HS256) whose claims carry the subject id (the user's store
identifier as a string) and the login email, with an expiration exactly
`60 * 60 * 8` seconds — 8 hours — after issuance; `validateToken` accepts the
token at any time before that expiration and its `email` claim equals the
login email. -/
theorem C6_theorem (store : Store) (payload : LoginRequest) (now : Nat)
    (user : Doc) (h : String) (o : Nat)
    (hfound : pyFound (findOne store.adminuser [("email", Value.vStr payload.email)]) = some user)
    (hhash : dGet user "password_hash" = some (Value.vStr h))
    (hver : verifyPassword payload.password h = true)
    (hid : dGet user "_id" = some (Value.vOid o)) :
    (admin_login store payload now).1 = HResult.ok
      { token := { claims := [("sub", Value.vStr (oidToString o)),
                     ("email", Value.vStr payload.email),
                     ("exp", Value.vNum ((now : ℚ) + 60 * 60 * 8))],
                   secret := JWT_SECRET, alg := JWT_ALG },
        name := pyGet user "name" }
    ∧ dGet [("sub", Value.vStr (oidToString o)), ("email", Value.vStr payload.email),
        ("exp", Value.vNum ((now : ℚ) + 60 * 60 * 8))] "email" =
        some (Value.vStr payload.email)
    ∧ ∀ t : ℚ, t < (now : ℚ) + 60 * 60 * 8 →
        validateToken
          { claims := [("sub", Value.vStr (oidToString o)),
              ("email", Value.vStr payload.email),
              ("exp", Value.vNum ((now : ℚ) + 60 * 60 * 8))],
            secret := JWT_SECRET, alg := JWT_ALG } JWT_SECRET t =
          Except.ok [("sub", Value.vStr (oidToString o)),
            ("email", Value.vStr payload.email),
            ("exp", Value.vNum ((now : ℚ) + 60 * 60 * 8))] := by
  have huser : findOne store.adminuser [("email", Value.vStr payload.email)] = some user :=
    pyFound_eq_some hfound
  have hmatch := List.find?_some huser
  rw [matchesFilter_single] at hmatch
  have hemail : dGet user "email" = some (Value.vStr payload.email) := by
    exact eq_of_beq hmatch
  have hpg : pyGet user "email" = Value.vStr payload.email := by
    rw [pyGet, hemail]
    rfl
  have hps : pyStrOfId (dGet user "_id") = oidToString o := by
    rw [hid]
    rfl
  refine ⟨?_, rfl, ?_⟩
  · unfold admin_login
    rw [hfound]
    simp only [hhash, hver, if_true, hpg, hps]
    rw [create_token_two "sub" "email" _ _ now (by decide) (by decide)]
  · intro t ht
    show (if t < (now : ℚ) + 60 * 60 * 8 then
        Except.ok [("sub", Value.vStr (oidToString o)), ("email", Value.vStr payload.email),
          ("exp", Value.vNum ((now : ℚ) + 60 * 60 * 8))]
      else Except.error TokenFailure.expired) =
      Except.ok [("sub", Value.vStr (oidToString o)), ("email", Value.vStr payload.email),
        ("exp", Value.vNum ((now : ℚ) + 60 * 60 * 8))]
    rw [if_pos ht]

/-- C6 witness: logging in with the seeded credentials at time 100 yields the
expected signed token, and `validateToken` accepts it before expiry. -/
theorem C6_witness :
    (admin_login ⟨[], [], [],
        [[("email", Value.vStr "admin@example.com"),
          ("password_hash", Value.vStr (hashPassword "admin123")),
          ("name", Value.vStr "Admin"), ("is_active", Value.vBool true),
          ("_id", Value.vOid 0)]], 1⟩ ⟨"admin@example.com", "admin123"⟩ 100).1 =
      HResult.ok
        { token := { claims := [("sub", Value.vStr (oidToString 0)),
                       ("email", Value.vStr "admin@example.com"),
                       ("exp", Value.vNum ((100 : ℚ) + 60 * 60 * 8))],
                     secret := JWT_SECRET, alg := JWT_ALG },
          name := pyGet [("email", Value.vStr "admin@example.com"),
            ("password_hash", Value.vStr (hashPassword "admin123")),
            ("name", Value.vStr "Admin"), ("is_active", Value.vBool true),
            ("_id", Value.vOid 0)] "name" }
    ∧ validateToken
        { claims := [("sub", Value.vStr (oidToString 0)),
            ("email", Value.vStr "admin@example.com"),
            ("exp", Value.vNum ((100 : ℚ) + 60 * 60 * 8))],
          secret := JWT_SECRET, alg := JWT_ALG } JWT_SECRET 7 =
      Except.ok [("sub", Value.vStr (oidToString 0)),
        ("email", Value.vStr "admin@example.com"),
        ("exp", Value.vNum ((100 : ℚ) + 60 * 60 * 8))] :=
  ⟨(C6_theorem ⟨[], [], [],
        [[("email", Value.vStr "admin@example.com"),
          ("password_hash", Value.vStr (hashPassword "admin123")),
          ("name", Value.vStr "Admin"), ("is_active", Value.vBool true),
          ("_id", Value.vOid 0)]], 1⟩ ⟨"admin@example.com", "admin123"⟩ 100
      [("email", Value.vStr "admin@example.com"),
       ("password_hash", Value.vStr (hashPassword "admin123")),
       ("name", Value.vStr "Admin"), ("is_active", Value.vBool true),
       ("_id", Value.vOid 0)] (hashPassword "admin123") 0
      (by decide) (by decide) (by decide) (by decide)).1,
   (C6_theorem ⟨[], [], [],
        [[("email", Value.vStr "admin@example.com"),
          ("password_hash", Value.vStr (hashPassword "admin123")),
          ("name", Value.vStr "Admin"), ("is_active", Value.vBool true),
          ("_id", Value.vOid 0)]], 1⟩ ⟨"admin@example.com", "admin123"⟩ 100
      [("email", Value.vStr "admin@example.com"),
       ("password_hash", Value.vStr (hashPassword "admin123")),
       ("name", Value.vStr "Admin"), ("is_active", Value.vBool true),
       ("_id", Value.vOid 0)] (hashPassword "admin123") 0
      (by decide) (by decide) (by decide) (by decide)).2.2 7 (by norm_num)⟩

theorem isEmpty_false_of_ne_nil {l : Doc} (h : l ≠ []) : l.isEmpty = false := by
  cases l with
  | nil => exact absurd rfl h
  | cons a t => rfl

/-- C4 counterexample: the claim asserts that, starting from any store with no
admin under the well-known email, two seed calls leave exactly one AdminUser
document in the store.  On a store already holding an AdminUser with a
different email, the two calls return created / exists as described, yet two
AdminUser documents remain. -/
theorem C4_counterexample :
    (∀ d ∈ (⟨[], [], [],
        [[("email", Value.vStr "other@example.com"), ("_id", Value.vOid 0)]], 1⟩ : Store).adminuser,
      dGet d "email" ≠ some (Value.vStr "admin@example.com"))
    ∧ (seed_admin ⟨[], [], [],
        [[("email", Value.vStr "other@example.com"), ("_id", Value.vOid 0)]], 1⟩).1 =
      [("status", Value.vStr "created"), ("email", Value.vStr "admin@example.com"),
       ("password", Value.vStr "admin123")]
    ∧ (seed_admin (seed_admin ⟨[], [], [],
        [[("email", Value.vStr "other@example.com"), ("_id", Value.vOid 0)]], 1⟩).2).1 =
      [("status", Value.vStr "exists")]
    ∧ (seed_admin (seed_admin ⟨[], [], [],
        [[("email", Value.vStr "other@example.com"), ("_id", Value.vOid 0)]], 1⟩).2).2.adminuser.length ≠ 1 := by
  decide

/-- C4 (amended): starting from a store with no AdminUser under the well-known
email, the first seed call returns the created status echoing the fixed
plaintext password, the second returns the exists status and leaves the store
untouched, and afterward exactly one AdminUser document with the well-known
email is present in the store. -/
theorem C4_theorem (store : Store)
    (h : ∀ d ∈ store.adminuser, dGet d "email" ≠ some (Value.vStr "admin@example.com")) :
    (seed_admin store).1 =
      [("status", Value.vStr "created"), ("email", Value.vStr "admin@example.com"),
       ("password", Value.vStr "admin123")]
    ∧ (seed_admin (seed_admin store).2).1 = [("status", Value.vStr "exists")]
    ∧ (seed_admin (seed_admin store).2).2 = (seed_admin store).2
    ∧ ((seed_admin (seed_admin store).2).2.adminuser.filter
        (fun d => dGet d "email" == some (Value.vStr "admin@example.com"))).length = 1 := by
  have hfalse : ∀ d ∈ store.adminuser,
      matchesFilter [("email", Value.vStr "admin@example.com")] d = false := by
    intro d hd
    rw [matchesFilter_single]
    exact beq_eq_false_iff_ne.mpr (h d hd)
  have hfind : findOne store.adminuser [("email", Value.vStr "admin@example.com")] = none :=
    find?_none_of_all_false _ _ hfalse
  have hstep1 : seed_admin store =
      ([("status", Value.vStr "created"), ("email", Value.vStr "admin@example.com"),
        ("password", Value.vStr "admin123")],
       { store with
          adminuser := store.adminuser ++
            [setField seededAdminDoc "_id" (Value.vOid store.nextId)],
          nextId := store.nextId + 1 }) := by
    unfold seed_admin
    rw [hfind]
    rfl
  have hNemail : dGet (setField seededAdminDoc "_id" (Value.vOid store.nextId)) "email" =
      some (Value.vStr "admin@example.com") := by
    rw [dGet_setField_ne _ _ (by decide)]
    rfl
  have hNmatch : matchesFilter [("email", Value.vStr "admin@example.com")]
      (setField seededAdminDoc "_id" (Value.vOid store.nextId)) = true := by
    rw [matchesFilter_single, hNemail]
    exact beq_self_eq_true _
  have hfind2 : findOne
      (store.adminuser ++ [setField seededAdminDoc "_id" (Value.vOid store.nextId)])
      [("email", Value.vStr "admin@example.com")] =
      some (setField seededAdminDoc "_id" (Value.vOid store.nextId)) :=
    find?_first hfalse hNmatch
  have hemp : (setField seededAdminDoc "_id" (Value.vOid store.nextId)).isEmpty = false :=
    isEmpty_false_of_ne_nil (setField_ne_nil _ _ _)
  have hstep2 : seed_admin
      { store with
          adminuser := store.adminuser ++
            [setField seededAdminDoc "_id" (Value.vOid store.nextId)],
          nextId := store.nextId + 1 } =
      ([("status", Value.vStr "exists")],
       { store with
          adminuser := store.adminuser ++
            [setField seededAdminDoc "_id" (Value.vOid store.nextId)],
          nextId := store.nextId + 1 }) := by
    unfold seed_admin
    rw [show ({ store with
          adminuser := store.adminuser ++
            [setField seededAdminDoc "_id" (Value.vOid store.nextId)],
          nextId := store.nextId + 1 } : Store).adminuser =
        store.adminuser ++ [setField seededAdminDoc "_id" (Value.vOid store.nextId)] from rfl,
      hfind2]
    simp [pyFound, hemp]
  rw [hstep1]
  dsimp only
  rw [hstep2]
  dsimp only
  refine ⟨rfl, rfl, rfl, ?_⟩
  have hnilfilter : store.adminuser.filter
      (fun d => dGet d "email" == some (Value.vStr "admin@example.com")) = [] := by
    rw [List.filter_eq_nil_iff]
    intro d hd
    simp only [Bool.not_eq_true]
    exact beq_eq_false_iff_ne.mpr (h d hd)
  have hNtrue : (dGet (setField seededAdminDoc "_id" (Value.vOid store.nextId)) "email" ==
      some (Value.vStr "admin@example.com")) = true := by
    rw [hNemail]
    exact beq_self_eq_true _
  simp [List.filter_append, hnilfilter, List.filter, hNtrue]

/-- C4 witness: seeding an empty store twice — created with the echoed
password, then exists, with exactly one matching AdminUser document left. -/
theorem C4_witness :
    (seed_admin ⟨[], [], [], [], 0⟩).1 =
      [("status", Value.vStr "created"), ("email", Value.vStr "admin@example.com"),
       ("password", Value.vStr "admin123")]
    ∧ (seed_admin (seed_admin ⟨[], [], [], [], 0⟩).2).1 = [("status", Value.vStr "exists")]
    ∧ (seed_admin (seed_admin ⟨[], [], [], [], 0⟩).2).2 = (seed_admin ⟨[], [], [], [], 0⟩).2
    ∧ ((seed_admin (seed_admin ⟨[], [], [], [], 0⟩).2).2.adminuser.filter
        (fun d => dGet d "email" == some (Value.vStr "admin@example.com"))).length = 1 :=
  C4_theorem ⟨[], [], [], [], 0⟩ (by simp)

/-- C7: when the settings collection is empty, `GET /settings` inserts a
singleton document built from the hardcoded defaults (`Nova Estates` / hero
texts, null contacts) and returns its serialization (public id, no internal
identifier key); when a settings document already exists, it is returned
as-is and the store is not modified. -/
theorem C7_theorem (store : Store) :
    (store.sitesettings = [] →
      (get_settings store).2 =
        { store with
            sitesettings :=
              [setField (dumpSiteSettings settingsDefaults) "_id" (Value.vOid store.nextId)],
            nextId := store.nextId + 1 }
      ∧ (get_settings store).1 = HResult.ok (serialize_doc
          (setField (dumpSiteSettings settingsDefaults) "_id" (Value.vOid store.nextId)))
      ∧ dGet (serialize_doc
          (setField (dumpSiteSettings settingsDefaults) "_id" (Value.vOid store.nextId)))
          "site_name" = some (Value.vStr "Nova Estates")
      ∧ dGet (serialize_doc
          (setField (dumpSiteSettings settingsDefaults) "_id" (Value.vOid store.nextId)))
          "hero_headline" = some (Value.vStr "Find your next home")
      ∧ dGet (serialize_doc
          (setField (dumpSiteSettings settingsDefaults) "_id" (Value.vOid store.nextId)))
          "hero_subtitle" = some (Value.vStr "Browse curated properties")
      ∧ dGet (serialize_doc
          (setField (dumpSiteSettings settingsDefaults) "_id" (Value.vOid store.nextId)))
          "contact_email" = some Value.vNull
      ∧ dGet (serialize_doc
          (setField (dumpSiteSettings settingsDefaults) "_id" (Value.vOid store.nextId)))
          "phone" = some Value.vNull
      ∧ dGet (serialize_doc
          (setField (dumpSiteSettings settingsDefaults) "_id" (Value.vOid store.nextId)))
          "id" = some (Value.vStr (oidToString store.nextId))
      ∧ dGet (serialize_doc
          (setField (dumpSiteSettings settingsDefaults) "_id" (Value.vOid store.nextId)))
          "_id" = none)
    ∧ (∀ d rest, store.sitesettings = d :: rest → d ≠ [] →
        get_settings store = (HResult.ok (serialize_doc d), store)) := by
  have hidN : dGet (setField (dumpSiteSettings settingsDefaults) "_id"
      (Value.vOid store.nextId)) "_id" = some (Value.vOid store.nextId) :=
    dGet_setField_self _ _ _
  have hneN : setField (dumpSiteSettings settingsDefaults) "_id"
      (Value.vOid store.nextId) ≠ [] := setField_ne_nil _ _ _
  constructor
  · intro h
    refine ⟨?_, ?_, ?_, ?_, ?_, ?_, ?_, ?_, ?_⟩
    · unfold get_settings
      rw [h]
      simp [findOne, pyFound, insertInto, serializeOpt, List.find?, matchesFilter]
    · unfold get_settings
      rw [h]
      simp [findOne, pyFound, insertInto, serializeOpt, List.find?, matchesFilter]
    · rw [dGet_serialize_other hneN hidN (by decide) (by decide),
        dGet_setField_ne _ _ (by decide)]
      rfl
    · rw [dGet_serialize_other hneN hidN (by decide) (by decide),
        dGet_setField_ne _ _ (by decide)]
      rfl
    · rw [dGet_serialize_other hneN hidN (by decide) (by decide),
        dGet_setField_ne _ _ (by decide)]
      rfl
    · rw [dGet_serialize_other hneN hidN (by decide) (by decide),
        dGet_setField_ne _ _ (by decide)]
      rfl
    · rw [dGet_serialize_other hneN hidN (by decide) (by decide),
        dGet_setField_ne _ _ (by decide)]
      rfl
    · exact dGet_serialize_id hneN hidN
    · exact dGet_serialize_no_oid hneN hidN
  · intro d rest h hd
    unfold get_settings
    rw [h]
    simp [findOne, List.find?, matchesFilter, pyFound, isEmpty_false_of_ne_nil hd]

/-- C7 witness: on an empty store the read creates the defaults singleton and
serves it; on a store already holding a settings document the read returns it
and leaves the store unchanged. -/
theorem C7_witness :
    ((get_settings ⟨[], [], [], [], 0⟩).2 =
      { (⟨[], [], [], [], 0⟩ : Store) with
          sitesettings :=
            [setField (dumpSiteSettings settingsDefaults) "_id" (Value.vOid 0)],
          nextId := 1 }
    ∧ dGet (serialize_doc
        (setField (dumpSiteSettings settingsDefaults) "_id" (Value.vOid 0)))
        "site_name" = some (Value.vStr "Nova Estates"))
    ∧ get_settings ⟨[], [], [[("site_name", Value.vStr "Existing"), ("_id", Value.vOid 0)]], [], 1⟩ =
      (HResult.ok (serialize_doc [("site_name", Value.vStr "Existing"), ("_id", Value.vOid 0)]),
       ⟨[], [], [[("site_name", Value.vStr "Existing"), ("_id", Value.vOid 0)]], [], 1⟩) :=
  ⟨⟨((C7_theorem ⟨[], [], [], [], 0⟩).1 rfl).1, ((C7_theorem ⟨[], [], [], [], 0⟩).1 rfl).2.2.1⟩,
   (C7_theorem ⟨[], [], [[("site_name", Value.vStr "Existing"), ("_id", Value.vOid 0)]], [], 1⟩).2
     [("site_name", Value.vStr "Existing"), ("_id", Value.vOid 0)] [] rfl (by decide)⟩

/-- C3: `PATCH /properties/{id}` with body `{"price": 450000}` replaces the
matched document by one that differs only in `price` (now 450000) and
`updated_at` (now stamped): every other field of that document keeps its
value, every other document in the property collection is unchanged in place,
and the other collections are untouched. -/
theorem C3_theorem (store : Store) (pre post : List Doc) (d : Doc) (oid now : Nat)
    (hb : oid < 16 ^ 24)
    (hsplit : store.property = pre ++ d :: post)
    (hpre : ∀ e ∈ pre, dGet e "_id" ≠ some (Value.vOid oid))
    (hd : dGet d "_id" = some (Value.vOid oid)) :
    (update_property store (oidToString oid) [("price", Value.vNum 450000)] now).2.property =
      pre ++ setField (setField d "price" (Value.vNum 450000)) "updated_at"
        (Value.vTime now) :: post
    ∧ dGet (setField (setField d "price" (Value.vNum 450000)) "updated_at"
        (Value.vTime now)) "price" = some (Value.vNum 450000)
    ∧ dGet (setField (setField d "price" (Value.vNum 450000)) "updated_at"
        (Value.vTime now)) "updated_at" = some (Value.vTime now)
    ∧ (∀ k, k ≠ "price" → k ≠ "updated_at" →
        dGet (setField (setField d "price" (Value.vNum 450000)) "updated_at"
          (Value.vTime now)) k = dGet d k)
    ∧ (update_property store (oidToString oid) [("price", Value.vNum 450000)] now).2.offer =
        store.offer
    ∧ (update_property store (oidToString oid) [("price", Value.vNum 450000)] now).2.sitesettings =
        store.sitesettings
    ∧ (update_property store (oidToString oid) [("price", Value.vNum 450000)] now).2.adminuser =
        store.adminuser := by
  have hmatch : matchesFilter [("_id", Value.vOid oid)] d = true := by
    rw [matchesFilter_single, hd]
    exact beq_self_eq_true _
  have hprefalse : ∀ e ∈ pre, matchesFilter [("_id", Value.vOid oid)] e = false := by
    intro e he
    rw [matchesFilter_single]
    exact beq_eq_false_iff_ne.mpr (hpre e he)
  have hupd : updateOneList store.property [("_id", Value.vOid oid)]
      (setField [("price", Value.vNum 450000)] "updated_at" (Value.vTime now)) =
      (pre ++ applySet d (setField [("price", Value.vNum 450000)] "updated_at"
        (Value.vTime now)) :: post, 1) := by
    rw [hsplit]
    exact updateOneList_split hprefalse hmatch
  have hmain : (update_property store (oidToString oid) [("price", Value.vNum 450000)] now).2 =
      { store with property :=
          pre ++ (setField (setField d "price" (Value.vNum 450000)) "updated_at"
            (Value.vTime now)) :: post } := by
    unfold update_property
    rw [parse_oidToString hb]
    dsimp only
    rw [hupd]
    rfl
  refine ⟨?_, ?_, ?_, ?_, ?_, ?_, ?_⟩
  · rw [hmain]
  · rw [dGet_setField_ne _ _ (by decide), dGet_setField_self]
  · exact dGet_setField_self _ _ _
  · intro k hk1 hk2
    rw [dGet_setField_ne _ _ hk2, dGet_setField_ne _ _ hk1]
  · rw [hmain]
  · rw [hmain]
  · rw [hmain]

/-- C3 witness: patching the single stored property changes `price` and
`updated_at` while `title` keeps its value. -/
theorem C3_witness :
    (update_property
        ⟨[[("title", Value.vStr "T"), ("price", Value.vNum 1), ("_id", Value.vOid 0)]],
          [], [], [], 1⟩ (oidToString 0) [("price", Value.vNum 450000)] 5).2.property =
      [] ++ setField (setField
          [("title", Value.vStr "T"), ("price", Value.vNum 1), ("_id", Value.vOid 0)]
          "price" (Value.vNum 450000)) "updated_at" (Value.vTime 5) :: []
    ∧ dGet (setField (setField
          [("title", Value.vStr "T"), ("price", Value.vNum 1), ("_id", Value.vOid 0)]
          "price" (Value.vNum 450000)) "updated_at" (Value.vTime 5)) "title" =
        dGet [("title", Value.vStr "T"), ("price", Value.vNum 1), ("_id", Value.vOid 0)] "title" :=
  ⟨(C3_theorem ⟨[[("title", Value.vStr "T"), ("price", Value.vNum 1), ("_id", Value.vOid 0)]],
      [], [], [], 1⟩ [] []
      [("title", Value.vStr "T"), ("price", Value.vNum 1), ("_id", Value.vOid 0)] 0 5
      (by norm_num) rfl (by simp) (by decide)).1,
   (C3_theorem ⟨[[("title", Value.vStr "T"), ("price", Value.vNum 1), ("_id", Value.vOid 0)]],
      [], [], [], 1⟩ [] []
      [("title", Value.vStr "T"), ("price", Value.vNum 1), ("_id", Value.vOid 0)] 0 5
      (by norm_num) rfl (by simp) (by decide)).2.2.2.1 "title" (by decide) (by decide)⟩

/-- C2: for every valid Property payload `P` and store whose documents all
carry identifiers below the fresh counter, `POST /properties` inserts the
dumped payload stamped with `listed_at = now` under a fresh identifier and
returns its serialization; `GET /properties/{id}` with the returned public id
yields the same document, which equals `P` field-for-field plus a populated
string `id` and a populated `listed_at` timestamp, with the internal `_id`
key removed. -/
theorem C2_theorem (store : Store) (P : PropertyT) (now : Nat)
    (hwf : ∀ d ∈ store.property, ∃ o, dGet d "_id" = some (Value.vOid o) ∧ o < store.nextId)
    (hb : store.nextId < 16 ^ 24) :
    create_property (some store) P now =
      (HResult.ok (serialize_doc (setField (setField (dumpProperty P) "listed_at"
          (Value.vTime now)) "_id" (Value.vOid store.nextId))),
       some { store with
          property := store.property ++ [setField (setField (dumpProperty P) "listed_at"
            (Value.vTime now)) "_id" (Value.vOid store.nextId)],
          nextId := store.nextId + 1 })
    ∧ get_property
        { store with
          property := store.property ++ [setField (setField (dumpProperty P) "listed_at"
            (Value.vTime now)) "_id" (Value.vOid store.nextId)],
          nextId := store.nextId + 1 } (oidToString store.nextId) =
        HResult.ok (serialize_doc (setField (setField (dumpProperty P) "listed_at"
          (Value.vTime now)) "_id" (Value.vOid store.nextId)))
    ∧ dGet (serialize_doc (setField (setField (dumpProperty P) "listed_at"
        (Value.vTime now)) "_id" (Value.vOid store.nextId))) "id" =
        some (Value.vStr (oidToString store.nextId))
    ∧ dGet (serialize_doc (setField (setField (dumpProperty P) "listed_at"
        (Value.vTime now)) "_id" (Value.vOid store.nextId))) "listed_at" =
        some (Value.vTime now)
    ∧ dGet (serialize_doc (setField (setField (dumpProperty P) "listed_at"
        (Value.vTime now)) "_id" (Value.vOid store.nextId))) "_id" = none
    ∧ (∀ k, k ≠ "id" → k ≠ "listed_at" → k ≠ "_id" →
        dGet (serialize_doc (setField (setField (dumpProperty P) "listed_at"
          (Value.vTime now)) "_id" (Value.vOid store.nextId))) k =
          dGet (dumpProperty P) k) := by
  have hidN : dGet (setField (setField (dumpProperty P) "listed_at" (Value.vTime now))
      "_id" (Value.vOid store.nextId)) "_id" = some (Value.vOid store.nextId) :=
    dGet_setField_self _ _ _
  have hneN : setField (setField (dumpProperty P) "listed_at" (Value.vTime now))
      "_id" (Value.vOid store.nextId) ≠ [] := setField_ne_nil _ _ _
  have hmatchN : matchesFilter [("_id", Value.vOid store.nextId)]
      (setField (setField (dumpProperty P) "listed_at" (Value.vTime now))
        "_id" (Value.vOid store.nextId)) = true := by
    rw [matchesFilter_single, hidN]
    exact beq_self_eq_true _
  have hprefalse : ∀ e ∈ store.property,
      matchesFilter [("_id", Value.vOid store.nextId)] e = false := by
    intro e he
    obtain ⟨o, ho, holt⟩ := hwf e he
    rw [matchesFilter_single, ho]
    simp only [beq_eq_false_iff_ne]
    intro hx
    rw [Option.some.injEq, Value.vOid.injEq] at hx
    omega
  have hfind : findOne (store.property ++ [setField (setField (dumpProperty P) "listed_at"
      (Value.vTime now)) "_id" (Value.vOid store.nextId)])
      [("_id", Value.vOid store.nextId)] =
      some (setField (setField (dumpProperty P) "listed_at" (Value.vTime now))
        "_id" (Value.vOid store.nextId)) :=
    find?_first hprefalse hmatchN
  have hemp : (setField (setField (dumpProperty P) "listed_at" (Value.vTime now))
      "_id" (Value.vOid store.nextId)).isEmpty = false :=
    isEmpty_false_of_ne_nil hneN
  refine ⟨?_, ?_, dGet_serialize_id hneN hidN, ?_, dGet_serialize_no_oid hneN hidN, ?_⟩
  · unfold create_property insertInto
    dsimp only
    rw [parse_oidToString hb]
    dsimp only
    rw [hfind]
    rfl
  · unfold get_property
    rw [parse_oidToString hb]
    dsimp only
    rw [hfind]
    simp [pyFound, hemp]
  · rw [dGet_serialize_other hneN hidN (by decide) (by decide),
      dGet_setField_ne _ _ (by decide), dGet_setField_self]
  · intro k hk1 hk2 hk3
    rw [dGet_serialize_other hneN hidN hk1 hk3,
      dGet_setField_ne _ _ hk3, dGet_setField_ne _ _ hk2]

/-- C2 witness: creating the Lake House payload on an empty store and reading
it back via the returned id yields a document with populated `id` and
`listed_at`, no `_id`, and the payload's own `title`. -/
theorem C2_witness :
    get_property
        { (⟨[], [], [], [], 0⟩ : Store) with
          property := [] ++ [setField (setField (dumpProperty
            ⟨"Lake House", none, 500000, "1 Lake Rd", "Tahoe", "CA", "US",
              none, none, none, [], "available", false, none⟩) "listed_at"
            (Value.vTime 7)) "_id" (Value.vOid 0)],
          nextId := 1 } (oidToString 0) =
      HResult.ok (serialize_doc (setField (setField (dumpProperty
        ⟨"Lake House", none, 500000, "1 Lake Rd", "Tahoe", "CA", "US",
          none, none, none, [], "available", false, none⟩) "listed_at"
        (Value.vTime 7)) "_id" (Value.vOid 0)))
    ∧ dGet (serialize_doc (setField (setField (dumpProperty
        ⟨"Lake House", none, 500000, "1 Lake Rd", "Tahoe", "CA", "US",
          none, none, none, [], "available", false, none⟩) "listed_at"
        (Value.vTime 7)) "_id" (Value.vOid 0))) "id" = some (Value.vStr (oidToString 0))
    ∧ dGet (serialize_doc (setField (setField (dumpProperty
        ⟨"Lake House", none, 500000, "1 Lake Rd", "Tahoe", "CA", "US",
          none, none, none, [], "available", false, none⟩) "listed_at"
        (Value.vTime 7)) "_id" (Value.vOid 0))) "listed_at" = some (Value.vTime 7)
    ∧ dGet (serialize_doc (setField (setField (dumpProperty
        ⟨"Lake House", none, 500000, "1 Lake Rd", "Tahoe", "CA", "US",
          none, none, none, [], "available", false, none⟩) "listed_at"
        (Value.vTime 7)) "_id" (Value.vOid 0))) "_id" = none
    ∧ dGet (serialize_doc (setField (setField (dumpProperty
        ⟨"Lake House", none, 500000, "1 Lake Rd", "Tahoe", "CA", "US",
          none, none, none, [], "available", false, none⟩) "listed_at"
        (Value.vTime 7)) "_id" (Value.vOid 0))) "title" =
        dGet (dumpProperty ⟨"Lake House", none, 500000, "1 Lake Rd", "Tahoe", "CA", "US",
          none, none, none, [], "available", false, none⟩) "title" :=
  ⟨(C2_theorem ⟨[], [], [], [], 0⟩
      ⟨"Lake House", none, 500000, "1 Lake Rd", "Tahoe", "CA", "US",
        none, none, none, [], "available", false, none⟩ 7 (by simp) (by norm_num)).2.1,
   (C2_theorem ⟨[], [], [], [], 0⟩
      ⟨"Lake House", none, 500000, "1 Lake Rd", "Tahoe", "CA", "US",
        none, none, none, [], "available", false, none⟩ 7 (by simp) (by norm_num)).2.2.1,
   (C2_theorem ⟨[], [], [], [], 0⟩
      ⟨"Lake House", none, 500000, "1 Lake Rd", "Tahoe", "CA", "US",
        none, none, none, [], "available", false, none⟩ 7 (by simp) (by norm_num)).2.2.2.1,
   (C2_theorem ⟨[], [], [], [], 0⟩
      ⟨"Lake House", none, 500000, "1 Lake Rd", "Tahoe", "CA", "US",
        none, none, none, [], "available", false, none⟩ 7 (by simp) (by norm_num)).2.2.2.2.1,
   (C2_theorem ⟨[], [], [], [], 0⟩
      ⟨"Lake House", none, 500000, "1 Lake Rd", "Tahoe", "CA", "US",
        none, none, none, [], "available", false, none⟩ 7 (by simp) (by norm_num)).2.2.2.2.2
     "title" (by decide) (by decide) (by decide)⟩

/-- C9: a Property payload that omits `status`, `featured` and `images`
validates to a record carrying the schema defaults — status "available",
featured false, images empty — and the document created by `POST /properties`
and listed by `GET /properties` carries exactly those defaulted values. -/
theorem C9_theorem (store : Store) (j : Doc) (P : PropertyT) (now : Nat)
    (hst : dGet j "status" = none) (hft : dGet j "featured" = none)
    (him : dGet j "images" = none)
    (hparse : parseProperty j = some P)
    (hwf : ∀ d ∈ store.property, ∃ o, dGet d "_id" = some (Value.vOid o) ∧ o < store.nextId)
    (hb : store.nextId < 16 ^ 24) :
    P.status = "available" ∧ P.featured = false ∧ P.images = []
    ∧ (create_property (some store) P now).1 =
        HResult.ok (serialize_doc (setField (setField (dumpProperty P) "listed_at"
          (Value.vTime now)) "_id" (Value.vOid store.nextId)))
    ∧ dGet (serialize_doc (setField (setField (dumpProperty P) "listed_at"
        (Value.vTime now)) "_id" (Value.vOid store.nextId))) "status" =
        some (Value.vStr "available")
    ∧ dGet (serialize_doc (setField (setField (dumpProperty P) "listed_at"
        (Value.vTime now)) "_id" (Value.vOid store.nextId))) "featured" =
        some (Value.vBool false)
    ∧ dGet (serialize_doc (setField (setField (dumpProperty P) "listed_at"
        (Value.vTime now)) "_id" (Value.vOid store.nextId))) "images" =
        some (Value.vStrList [])
    ∧ serialize_doc (setField (setField (dumpProperty P) "listed_at"
        (Value.vTime now)) "_id" (Value.vOid store.nextId)) ∈
        list_properties
          { store with
            property := store.property ++ [setField (setField (dumpProperty P) "listed_at"
              (Value.vTime now)) "_id" (Value.vOid store.nextId)],
            nextId := store.nextId + 1 } none := by
  have h1 : defStr j "status" "available" = some "available" := by
    unfold defStr
    rw [hst]
  have h2 : defBool j "featured" false = some false := by
    unfold defBool
    rw [hft]
  have h3 : defStrList j "images" = some [] := by
    unfold defStrList
    rw [him]
  simp only [parseProperty, h1, h2, h3, Option.some_bind', Option.bind_eq_some',
    Option.some.injEq] at hparse
  obtain ⟨t, ht, d1, hd1, p1, hp1, a1, ha1, c1, hc1, s1, hs1, co1, hco1,
    b1, hb1, b2, hb2, s2, hs2, l1, hl1, hP⟩ := hparse
  have hstatus : P.status = "available" := by rw [← hP]
  have hfeat : P.featured = false := by rw [← hP]
  have himg : P.images = [] := by rw [← hP]
  have hidN : dGet (setField (setField (dumpProperty P) "listed_at" (Value.vTime now))
      "_id" (Value.vOid store.nextId)) "_id" = some (Value.vOid store.nextId) :=
    dGet_setField_self _ _ _
  have hneN : setField (setField (dumpProperty P) "listed_at" (Value.vTime now))
      "_id" (Value.vOid store.nextId) ≠ [] := setField_ne_nil _ _ _
  have hmatchN : matchesFilter [("_id", Value.vOid store.nextId)]
      (setField (setField (dumpProperty P) "listed_at" (Value.vTime now))
        "_id" (Value.vOid store.nextId)) = true := by
    rw [matchesFilter_single, hidN]
    exact beq_self_eq_true _
  have hprefalse : ∀ e ∈ store.property,
      matchesFilter [("_id", Value.vOid store.nextId)] e = false := by
    intro e he
    obtain ⟨o, ho, holt⟩ := hwf e he
    rw [matchesFilter_single, ho]
    simp only [beq_eq_false_iff_ne]
    intro hx
    rw [Option.some.injEq, Value.vOid.injEq] at hx
    omega
  have hfind : findOne (store.property ++ [setField (setField (dumpProperty P) "listed_at"
      (Value.vTime now)) "_id" (Value.vOid store.nextId)])
      [("_id", Value.vOid store.nextId)] =
      some (setField (setField (dumpProperty P) "listed_at" (Value.vTime now))
        "_id" (Value.vOid store.nextId)) :=
    find?_first hprefalse hmatchN
  have hfld : ∀ k : String, k ≠ "id" → k ≠ "listed_at" → k ≠ "_id" →
      dGet (serialize_doc (setField (setField (dumpProperty P) "listed_at"
        (Value.vTime now)) "_id" (Value.vOid store.nextId))) k = dGet (dumpProperty P) k := by
    intro k hk1 hk2 hk3
    rw [dGet_serialize_other hneN hidN hk1 hk3,
      dGet_setField_ne _ _ hk3, dGet_setField_ne _ _ hk2]
  refine ⟨hstatus, hfeat, himg, ?_, ?_, ?_, ?_, ?_⟩
  · unfold create_property insertInto
    dsimp only
    rw [parse_oidToString hb]
    dsimp only
    rw [hfind]
    rfl
  · rw [hfld "status" (by decide) (by decide) (by decide)]
    show some (Value.vStr P.status) = some (Value.vStr "available")
    rw [hstatus]
  · rw [hfld "featured" (by decide) (by decide) (by decide)]
    show some (Value.vBool P.featured) = some (Value.vBool false)
    rw [hfeat]
  · rw [hfld "images" (by decide) (by decide) (by decide)]
    show some (Value.vStrList P.images) = some (Value.vStrList [])
    rw [himg]
  · have hlist : list_properties
        { store with
          property := store.property ++ [setField (setField (dumpProperty P) "listed_at"
            (Value.vTime now)) "_id" (Value.vOid store.nextId)],
          nextId := store.nextId + 1 } none =
        (store.property ++ [setField (setField (dumpProperty P) "listed_at"
          (Value.vTime now)) "_id" (Value.vOid store.nextId)]).map serialize_doc := by
      unfold list_properties
      dsimp only
      rw [get_documents_nil]
    rw [hlist]
    exact List.mem_map_of_mem _ (List.mem_append_right _ (by simp))

/-- C9 witness: the Lake House payload, which omits `status`, `featured` and
`images`, is created with the defaulted values and listed by the collection
read. -/
theorem C9_witness :
    dGet (serialize_doc (setField (setField (dumpProperty
        ⟨"Lake House", none, 500000, "1 Lake Rd", "Tahoe", "CA", "US",
          none, none, none, [], "available", false, none⟩) "listed_at"
        (Value.vTime 3)) "_id" (Value.vOid 0))) "status" = some (Value.vStr "available")
    ∧ dGet (serialize_doc (setField (setField (dumpProperty
        ⟨"Lake House", none, 500000, "1 Lake Rd", "Tahoe", "CA", "US",
          none, none, none, [], "available", false, none⟩) "listed_at"
        (Value.vTime 3)) "_id" (Value.vOid 0))) "featured" = some (Value.vBool false)
    ∧ dGet (serialize_doc (setField (setField (dumpProperty
        ⟨"Lake House", none, 500000, "1 Lake Rd", "Tahoe", "CA", "US",
          none, none, none, [], "available", false, none⟩) "listed_at"
        (Value.vTime 3)) "_id" (Value.vOid 0))) "images" = some (Value.vStrList [])
    ∧ serialize_doc (setField (setField (dumpProperty
        ⟨"Lake House", none, 500000, "1 Lake Rd", "Tahoe", "CA", "US",
          none, none, none, [], "available", false, none⟩) "listed_at"
        (Value.vTime 3)) "_id" (Value.vOid 0)) ∈
        list_properties
          { (⟨[], [], [], [], 0⟩ : Store) with
            property := [] ++ [setField (setField (dumpProperty
              ⟨"Lake House", none, 500000, "1 Lake Rd", "Tahoe", "CA", "US",
                none, none, none, [], "available", false, none⟩) "listed_at"
              (Value.vTime 3)) "_id" (Value.vOid 0)],
            nextId := 1 } none :=
  ⟨(C9_theorem ⟨[], [], [], [], 0⟩
      [("title", Value.vStr "Lake House"), ("price", Value.vNum 500000),
       ("address", Value.vStr "1 Lake Rd"), ("city", Value.vStr "Tahoe"),
       ("state", Value.vStr "CA"), ("country", Value.vStr "US")]
      ⟨"Lake House", none, 500000, "1 Lake Rd", "Tahoe", "CA", "US",
        none, none, none, [], "available", false, none⟩ 3
      (by decide) (by decide) (by decide) (by decide) (by simp) (by norm_num)).2.2.2.2.1,
   (C9_theorem ⟨[], [], [], [], 0⟩
      [("title", Value.vStr "Lake House"), ("price", Value.vNum 500000),
       ("address", Value.vStr "1 Lake Rd"), ("city", Value.vStr "Tahoe"),
       ("state", Value.vStr "CA"), ("country", Value.vStr "US")]
      ⟨"Lake House", none, 500000, "1 Lake Rd", "Tahoe", "CA", "US",
        none, none, none, [], "available", false, none⟩ 3
      (by decide) (by decide) (by decide) (by decide) (by simp) (by norm_num)).2.2.2.2.2.1,
   (C9_theorem ⟨[], [], [], [], 0⟩
      [("title", Value.vStr "Lake House"), ("price", Value.vNum 500000),
       ("address", Value.vStr "1 Lake Rd"), ("city", Value.vStr "Tahoe"),
       ("state", Value.vStr "CA"), ("country", Value.vStr "US")]
      ⟨"Lake House", none, 500000, "1 Lake Rd", "Tahoe", "CA", "US",
        none, none, none, [], "available", false, none⟩ 3
      (by decide) (by decide) (by decide) (by decide) (by simp) (by norm_num)).2.2.2.2.2.2.1,
   (C9_theorem ⟨[], [], [], [], 0⟩
      [("title", Value.vStr "Lake House"), ("price", Value.vNum 500000),
       ("address", Value.vStr "1 Lake Rd"), ("city", Value.vStr "Tahoe"),
       ("state", Value.vStr "CA"), ("country", Value.vStr "US")]
      ⟨"Lake House", none, 500000, "1 Lake Rd", "Tahoe", "CA", "US",
        none, none, none, [], "available", false, none⟩ 3
      (by decide) (by decide) (by decide) (by decide) (by simp) (by norm_num)).2.2.2.2.2.2.2⟩
